import Mathlib

/-!
Shallow embedding of the LightPollution_FHE contract (the single Solidity
source file of the repository) together with theorems settling the spec
claims about it.

Modelling conventions:
- The homomorphic algebra (euint32 handles and the FHE library) is treated
  as an opaque capability, exactly as the spec prescribes: a `Ciphertext`
  is a syntactic term recording which library operation produced it.  The
  default value of a ciphertext mapping slot is the uninitialized handle
  `Ciphertext.uninit`, and FHE.isInitialized recognises exactly that.
- Solidity mappings are total functions with the default element at every
  unwritten key, matching EVM storage semantics.
- `require(cond, msg)` failures revert the transaction; an operation is a
  function returning `Except ContractError ...`.  For the oracle callback
  we additionally keep the statement-ordered run (state plus optional
  error) so that the claim that verification precedes every write is a
  real theorem about evaluation order, not a triviality of revert
  semantics.
- FHE.requestDecryption returns an opaque fresh request id; we model the
  stream of ids handed out by the gateway with a `nextRequestId` counter
  (starting at 1; the contract uses 0 as the absent-correlation sentinel)
  and record each dispatched request with its ciphertext handles.
- FHE.checkSignatures is opaque; whether the supplied proof verifies for
  the given request is passed in as the boolean `sigOk`.
- The source declares the decrypted fields with the (non-existent in
  Solidity) type `float`; no arithmetic is ever performed on them, so we
  model them as opaque integer scalars.
- Events are observational only and are not part of the ledger state; no
  claim mentions them, so they are omitted.
-/

namespace LightPollutionFHE

/-- Opaque syntactic model of an euint32 ciphertext handle. -/
inductive Ciphertext : Type
  | uninit : Ciphertext
  | ext : Nat → Ciphertext
  | asEuint32 : Nat → Ciphertext
  | add : Ciphertext → Ciphertext → Ciphertext
  | div : Ciphertext → Ciphertext → Ciphertext
deriving DecidableEq, Repr

/-- FHE.isInitialized: true for every handle except the default
uninitialized one occupying unwritten mapping slots. -/
def isInitialized : Ciphertext → Bool
  | Ciphertext.uninit => false
  | _ => true

/-- struct EncryptedObservation of the source. -/
structure EncryptedObservation : Type where
  observerId : Nat
  encryptedBrightness : Ciphertext
  encryptedLatitude : Ciphertext
  encryptedLongitude : Ciphertext
  encryptedTimestamp : Ciphertext
  submissionTime : Nat
deriving DecidableEq, Repr

/-- Default (all-zero) encrypted record found at unwritten mapping keys. -/
def defaultEncrypted : EncryptedObservation :=
  { observerId := 0
    encryptedBrightness := Ciphertext.uninit
    encryptedLatitude := Ciphertext.uninit
    encryptedLongitude := Ciphertext.uninit
    encryptedTimestamp := Ciphertext.uninit
    submissionTime := 0 }

/-- struct DecryptedObservation of the source.  The source writes the
plaintext fields with type float; they are opaque scalars here. -/
structure DecryptedObservation : Type where
  brightness : Int
  latitude : Int
  longitude : Int
  timestamp : Int
  isRevealed : Bool
deriving DecidableEq, Repr

/-- Default (all-zero, unrevealed) decrypted record. -/
def defaultDecrypted : DecryptedObservation :=
  { brightness := 0, latitude := 0, longitude := 0, timestamp := 0
    isRevealed := false }

/-- Error kinds of the spec, mapped onto the revert messages of the
source: "Invalid request" is unknownRequest, "Already decrypted" is
alreadyRevealed, "Region not found" is regionNotFound, a revert inside
FHE.checkSignatures is proofVerificationFailed and a revert inside
abi.decode or the results indexing is decodeFailure.  The remaining
kinds named by the spec (notFound, requestAlreadyPending, unauthorized,
emptyInput) are included so that their absence from the behaviour of the
code is expressible. -/
inductive ContractError : Type
  | notFound
  | alreadyRevealed
  | requestAlreadyPending
  | unknownRequest
  | proofVerificationFailed
  | unauthorized
  | emptyInput
  | regionNotFound
  | decodeFailure
deriving DecidableEq, Repr

/-- Storage of the contract.  Mappings are total functions returning the
default element at unwritten keys.  `nextRequestId` and `dispatched`
model the opaque decryption-oracle gateway: the fresh request id handed
out by FHE.requestDecryption and the log of dispatched requests with
their ciphertext handles. -/
structure ContractState : Type where
  observationCount : Nat
  encryptedObservations : Nat → EncryptedObservation
  decryptedObservations : Nat → DecryptedObservation
  encryptedRegionStats : String → Ciphertext
  regionList : List String
  requestToObservationId : Nat → Nat
  nextRequestId : Nat
  dispatched : List (Nat × List Ciphertext)

/-- Contract storage right after deployment: zero count, empty mappings,
empty region list, no correlations. -/
def initialState : ContractState :=
  { observationCount := 0
    encryptedObservations := fun _ => defaultEncrypted
    decryptedObservations := fun _ => defaultDecrypted
    encryptedRegionStats := fun _ => Ciphertext.uninit
    regionList := []
    requestToObservationId := fun _ => 0
    nextRequestId := 1
    dispatched := [] }

/-- Arguments of one submitEncryptedObservation call, together with the
block timestamp of the transaction. -/
structure SubmitInput : Type where
  encryptedBrightness : Ciphertext
  encryptedLatitude : Ciphertext
  encryptedLongitude : Ciphertext
  encryptedTimestamp : Ciphertext
  regionCode : String
  blockTimestamp : Nat
deriving Repr

/-- submitEncryptedObservation (source lines 43 to 76).  Increments the
count, stores the encrypted record under the new id (the source sets
observerId to the new id itself), stores a fresh all-zero decrypted
record, and registers the region on first sight: if the region slot is
uninitialized it is set to the encrypted zero and the code is appended
to regionList.  Never reverts.  Returns the new id alongside the state
(the source exposes it through observationCount and the emitted event). -/
def submitEncryptedObservation (inp : SubmitInput) (s : ContractState) :
    ContractState × Nat :=
  let newCount := s.observationCount + 1
  let newId := newCount
  let s1 : ContractState :=
    { s with
      observationCount := newCount
      encryptedObservations := fun i =>
        if i = newId then
          { observerId := newId
            encryptedBrightness := inp.encryptedBrightness
            encryptedLatitude := inp.encryptedLatitude
            encryptedLongitude := inp.encryptedLongitude
            encryptedTimestamp := inp.encryptedTimestamp
            submissionTime := inp.blockTimestamp }
        else s.encryptedObservations i
      decryptedObservations := fun i =>
        if i = newId then defaultDecrypted else s.decryptedObservations i }
  let s2 : ContractState :=
    if isInitialized (s1.encryptedRegionStats inp.regionCode) then s1
    else
      { s1 with
        encryptedRegionStats := fun c =>
          if c = inp.regionCode then Ciphertext.asEuint32 0
          else s1.encryptedRegionStats c
        regionList := s1.regionList ++ [inp.regionCode] }
  (s2, newId)

/-- requestObservationDecryption (source lines 78 to 92).  The
onlyObserver modifier of the source has the empty body `_;`, so it
checks nothing; the caller identity `sender` is therefore an unused
argument, mirroring that the source never reads msg.sender.  The single
require demands that the decrypted record is not yet revealed.  On
success the four ciphertext handles of the stored encrypted record
(default handles if the id was never assigned) are dispatched to the
oracle, and the fresh request id is correlated to the observation id. -/
def requestObservationDecryption (sender : Nat) (observationId : Nat)
    (s : ContractState) : Except ContractError (ContractState × Nat) :=
  let obs := s.encryptedObservations observationId
  if (s.decryptedObservations observationId).isRevealed then
    Except.error ContractError.alreadyRevealed
  else
    let ciphertexts : List Ciphertext :=
      [obs.encryptedBrightness, obs.encryptedLatitude,
       obs.encryptedLongitude, obs.encryptedTimestamp]
    let reqId := s.nextRequestId
    let s1 : ContractState :=
      { s with
        dispatched := s.dispatched ++ [(reqId, ciphertexts)]
        nextRequestId := s.nextRequestId + 1
        requestToObservationId := fun r =>
          if r = reqId then observationId else s.requestToObservationId r }
    Except.ok (s1, reqId)

/-- decryptObservation (source lines 94 to 117), statement-ordered run:
the pair holds the storage as left by execution and the error of the
first failed statement, if any.  The source order is: correlation
lookup and require observationId != 0 ("Invalid request"), require not
yet revealed ("Already decrypted"), FHE.checkSignatures (modelled by
sigOk), abi.decode of the cleartexts into at least four scalars, then
the writes to the decrypted record.  Note that the source never deletes
requestToObservationId[requestId]. -/
def decryptObservationRun (requestId : Nat) (cleartexts : List Int)
    (sigOk : Bool) (s : ContractState) : ContractState × Option ContractError :=
  let observationId := s.requestToObservationId requestId
  if observationId = 0 then
    (s, some ContractError.unknownRequest)
  else if (s.decryptedObservations observationId).isRevealed then
    (s, some ContractError.alreadyRevealed)
  else if sigOk = false then
    (s, some ContractError.proofVerificationFailed)
  else
    match cleartexts with
    | b :: la :: lo :: ts :: _ =>
        ({ s with
           decryptedObservations := fun i =>
             if i = observationId then
               { brightness := b, latitude := la, longitude := lo
                 timestamp := ts, isRevealed := true }
             else s.decryptedObservations i }, none)
    | _ => (s, some ContractError.decodeFailure)

/-- decryptObservation under transaction semantics: a failed require
reverts, so the whole call either errors or returns the final storage. -/
def decryptObservation (requestId : Nat) (cleartexts : List Int)
    (sigOk : Bool) (s : ContractState) : Except ContractError ContractState :=
  match decryptObservationRun requestId cleartexts sigOk s with
  | (s1, none) => Except.ok s1
  | (_, some e) => Except.error e

/-- calculateRegionalBrightness (source lines 119 to 130).  Requires the
region slot to be initialized ("Region not found"), then returns the
stored region ciphertext homomorphically divided by the global
observation count; uint32(observationCount) truncates modulo 2^32.
Only an event is emitted, so storage is unchanged. -/
def calculateRegionalBrightness (regionCode : String) (s : ContractState) :
    Except ContractError Ciphertext :=
  if isInitialized (s.encryptedRegionStats regionCode) then
    Except.ok (Ciphertext.div (s.encryptedRegionStats regionCode)
      (Ciphertext.asEuint32 (s.observationCount % 2 ^ 32)))
  else Except.error ContractError.regionNotFound

/-- getDecryptedObservation (source lines 132 to 141): a plain view of
the mapping slot, returning the five fields; it has no failure path. -/
def getDecryptedObservation (observationId : Nat) (s : ContractState) :
    Int × Int × Int × Int × Bool :=
  let d := s.decryptedObservations observationId
  (d.brightness, d.latitude, d.longitude, d.timestamp, d.isRevealed)

/-- Auto-generated public getter of the encryptedObservations mapping:
returns the stored record, the default one for unwritten keys; it has
no failure path. -/
def getEncryptedObservation (observationId : Nat) (s : ContractState) :
    EncryptedObservation :=
  s.encryptedObservations observationId

/-- Fold a list of submissions through the contract, returning the final
storage. -/
def submitAll : List SubmitInput → ContractState → ContractState
  | [], s => s
  | inp :: rest, s => submitAll rest (submitEncryptedObservation inp s).1

/-- The identities assigned by a list of submissions, in order. -/
def submitAllIds : List SubmitInput → ContractState → List Nat
  | [], _ => []
  | inp :: rest, s =>
      (submitEncryptedObservation inp s).2 ::
        submitAllIds rest (submitEncryptedObservation inp s).1

/-- Post-state of a requestObservationDecryption transaction: the new
storage on success, the unchanged storage on revert. -/
def requestResultState (sender observationId : Nat) (s : ContractState) :
    ContractState :=
  match requestObservationDecryption sender observationId s with
  | Except.ok (s1, _) => s1
  | Except.error _ => s

/-- Post-state of a decryptObservation transaction: the new storage on
success, the unchanged storage on revert. -/
def fulfillResultState (requestId : Nat) (cleartexts : List Int)
    (sigOk : Bool) (s : ContractState) : ContractState :=
  match decryptObservation requestId cleartexts sigOk s with
  | Except.ok s1 => s1
  | Except.error _ => s

/-- Boolean success test for an Except result. -/
def isOkE {ε α : Type} : Except ε α → Bool
  | Except.ok _ => true
  | Except.error _ => false

/-- The error of an Except result, if any. -/
def errorOf {ε α : Type} : Except ε α → Option ε
  | Except.ok _ => none
  | Except.error e => some e

/-- First occurrences of the elements of a list, in order of first
appearance, starting from an already-registered accumulator. -/
def firstOccurAux (acc : List String) : List String → List String
  | [] => acc
  | c :: rest => firstOccurAux (if c ∈ acc then acc else acc ++ [c]) rest

/-- First occurrences of the elements of a list, in order. -/
def firstOccur (l : List String) : List String := firstOccurAux [] l

/-- The registration invariant: a region slot is initialized exactly when
its code is on the registration list.  It holds at deployment and is
preserved by every submission. -/
def regionInv (s : ContractState) : Prop :=
  ∀ c, isInitialized (s.encryptedRegionStats c) = true ↔ c ∈ s.regionList

/-! Concrete scenario states used by the closed theorems below. -/

/-- A concrete submission naming region EU-1. -/
def exInput : SubmitInput :=
  { encryptedBrightness := Ciphertext.ext 10
    encryptedLatitude := Ciphertext.ext 11
    encryptedLongitude := Ciphertext.ext 12
    encryptedTimestamp := Ciphertext.ext 13
    regionCode := "EU-1"
    blockTimestamp := 1000 }

/-- A second concrete submission naming region AS-2. -/
def exInputAS : SubmitInput :=
  { encryptedBrightness := Ciphertext.ext 20
    encryptedLatitude := Ciphertext.ext 21
    encryptedLongitude := Ciphertext.ext 22
    encryptedTimestamp := Ciphertext.ext 23
    regionCode := "AS-2"
    blockTimestamp := 1001 }

/-- The submission sequence of the concrete region example of the spec:
region codes EU-1, EU-1, AS-2. -/
def exThreeRegions : List SubmitInput := [exInput, exInput, exInputAS]

/-- State after one submission: observation 1 exists, unrevealed. -/
def exS1 : ContractState := (submitEncryptedObservation exInput initialState).1

/-- State after additionally requesting decryption of observation 1:
request id 1 is correlated to observation 1. -/
def exS2 : ContractState := requestResultState 0 1 exS1

/-- State after the oracle fulfils request 1 with a verifying proof:
observation 1 is revealed. -/
def exS3 : ContractState := fulfillResultState 1 [5, 6, 7, 8] true exS2

/-- State after a second decryption request for observation 1 issued
while request 1 is still pending: request id 2 is also correlated to
observation 1. -/
def exS4 : ContractState := requestResultState 0 1 exS2

/-- From deployment, a decryption request for the never-assigned
observation id 5: the code does not check existence, so request id 1 is
correlated to 5. -/
def exPhantomRequested : ContractState := requestResultState 0 5 initialState

/-- The oracle fulfils the phantom request with a verifying proof: the
decrypted record of the never-assigned id 5 becomes revealed. -/
def exPhantomRevealed : ContractState :=
  fulfillResultState 1 [9, 8, 7, 6] true exPhantomRequested

/-- Five submissions after the phantom reveal: the fifth assigns id 5
and overwrites its decrypted record with a fresh unrevealed one. -/
def exAfterFive : ContractState :=
  submitAll [exInput, exInput, exInput, exInput, exInput] exPhantomRevealed

/-! Projection lemmas for a single submission. -/

theorem isInitialized_uninit : isInitialized Ciphertext.uninit = false := rfl

theorem isInitialized_asEuint32 (n : Nat) :
    isInitialized (Ciphertext.asEuint32 n) = true := rfl

theorem submit_count (inp : SubmitInput) (s : ContractState) :
    (submitEncryptedObservation inp s).1.observationCount =
      s.observationCount + 1 := by
  simp only [submitEncryptedObservation]
  split <;> rfl

theorem submit_id (inp : SubmitInput) (s : ContractState) :
    (submitEncryptedObservation inp s).2 = s.observationCount + 1 := rfl

theorem submit_decrypted (inp : SubmitInput) (s : ContractState) (i : Nat) :
    (submitEncryptedObservation inp s).1.decryptedObservations i =
      if i = s.observationCount + 1 then defaultDecrypted
      else s.decryptedObservations i := by
  simp only [submitEncryptedObservation]
  split <;> rfl

theorem submit_encrypted_ne (inp : SubmitInput) (s : ContractState) (i : Nat)
    (h : i ≠ s.observationCount + 1) :
    (submitEncryptedObservation inp s).1.encryptedObservations i =
      s.encryptedObservations i := by
  simp only [submitEncryptedObservation]
  split <;> simp [h]

theorem submit_requestMap (inp : SubmitInput) (s : ContractState) :
    (submitEncryptedObservation inp s).1.requestToObservationId =
      s.requestToObservationId := by
  simp only [submitEncryptedObservation]
  split <;> rfl

theorem submit_nextRequestId (inp : SubmitInput) (s : ContractState) :
    (submitEncryptedObservation inp s).1.nextRequestId = s.nextRequestId := by
  simp only [submitEncryptedObservation]
  split <;> rfl

theorem submit_dispatched (inp : SubmitInput) (s : ContractState) :
    (submitEncryptedObservation inp s).1.dispatched = s.dispatched := by
  simp only [submitEncryptedObservation]
  split <;> rfl

theorem submit_regionList (inp : SubmitInput) (s : ContractState) :
    (submitEncryptedObservation inp s).1.regionList =
      if isInitialized (s.encryptedRegionStats inp.regionCode) then s.regionList
      else s.regionList ++ [inp.regionCode] := by
  simp only [submitEncryptedObservation]
  split <;> simp_all

theorem submit_regionStats (inp : SubmitInput) (s : ContractState) (c : String) :
    (submitEncryptedObservation inp s).1.encryptedRegionStats c =
      if isInitialized (s.encryptedRegionStats inp.regionCode) = false ∧
          c = inp.regionCode then Ciphertext.asEuint32 0
      else s.encryptedRegionStats c := by
  simp only [submitEncryptedObservation]
  split <;> rename_i hini
  · simp_all
  · by_cases hc : c = inp.regionCode <;> simp_all

/-! Lemmas about sequences of submissions. -/

theorem submitAll_count (inputs : List SubmitInput) (s : ContractState) :
    (submitAll inputs s).observationCount =
      s.observationCount + inputs.length := by
  induction inputs generalizing s with
  | nil => simp [submitAll]
  | cons inp rest ih =>
      rw [submitAll, ih, submit_count, List.length_cons]
      omega

theorem submitAll_ids (inputs : List SubmitInput) (s : ContractState) :
    submitAllIds inputs s = List.range' (s.observationCount + 1) inputs.length := by
  induction inputs generalizing s with
  | nil => simp [submitAllIds]
  | cons inp rest ih =>
      rw [submitAllIds, ih, submit_id, submit_count, List.length_cons,
        List.range'_succ]

theorem submitAll_requestMap (inputs : List SubmitInput) (s : ContractState) :
    (submitAll inputs s).requestToObservationId = s.requestToObservationId := by
  induction inputs generalizing s with
  | nil => rfl
  | cons inp rest ih => rw [submitAll, ih, submit_requestMap]

theorem submitAll_nextRequestId (inputs : List SubmitInput) (s : ContractState) :
    (submitAll inputs s).nextRequestId = s.nextRequestId := by
  induction inputs generalizing s with
  | nil => rfl
  | cons inp rest ih => rw [submitAll, ih, submit_nextRequestId]

theorem submitAll_dispatched (inputs : List SubmitInput) (s : ContractState) :
    (submitAll inputs s).dispatched = s.dispatched := by
  induction inputs generalizing s with
  | nil => rfl
  | cons inp rest ih => rw [submitAll, ih, submit_dispatched]

/-- Submissions never touch a record whose id is 0 or above the final
observation count: such an id is never assigned. -/
theorem submitAll_records_high (inputs : List SubmitInput) (s : ContractState)
    (i : Nat) (h : i = 0 ∨ s.observationCount + inputs.length < i) :
    (submitAll inputs s).decryptedObservations i = s.decryptedObservations i ∧
    (submitAll inputs s).encryptedObservations i = s.encryptedObservations i := by
  induction inputs generalizing s with
  | nil => exact ⟨rfl, rfl⟩
  | cons inp rest ih =>
      rw [submitAll]
      have hne : i ≠ s.observationCount + 1 := by
        simp only [List.length_cons] at h
        omega
      have hrec := ih (submitEncryptedObservation inp s).1 (by
        rw [submit_count]
        simp only [List.length_cons] at h
        omega)
      rw [hrec.1, hrec.2, submit_decrypted, submit_encrypted_ne inp s i hne,
        if_neg hne]
      exact ⟨rfl, rfl⟩

/-- The region slot of a code after a sequence of submissions: set to the
encrypted zero on the first submission naming a previously uninitialized
code, otherwise untouched. -/
theorem submitAll_stats (inputs : List SubmitInput) (s : ContractState)
    (c : String) :
    (submitAll inputs s).encryptedRegionStats c =
      if isInitialized (s.encryptedRegionStats c) = false ∧
          c ∈ inputs.map SubmitInput.regionCode then Ciphertext.asEuint32 0
      else s.encryptedRegionStats c := by
  induction inputs generalizing s with
  | nil => simp [submitAll]
  | cons inp rest ih =>
      rw [submitAll, ih, submit_regionStats inp s c]
      by_cases hc : c = inp.regionCode
      · subst hc
        by_cases hini : isInitialized (s.encryptedRegionStats inp.regionCode) <;>
          simp_all [isInitialized_asEuint32]
      · simp_all

theorem regionInv_initial : regionInv initialState := by
  intro c
  simp [initialState, isInitialized_uninit]

theorem submit_regionInv (inp : SubmitInput) (s : ContractState)
    (h : regionInv s) : regionInv (submitEncryptedObservation inp s).1 := by
  intro c
  rw [submit_regionStats, submit_regionList]
  by_cases hini : isInitialized (s.encryptedRegionStats inp.regionCode)
  · rw [if_pos hini, if_neg (by simp [hini])]
    exact h c
  · simp only [Bool.not_eq_true] at hini
    by_cases hc : c = inp.regionCode
    · subst hc
      rw [if_pos (And.intro hini rfl), if_neg (by simp [hini])]
      simp [isInitialized_asEuint32]
    · rw [if_neg (fun hand => hc hand.2), if_neg (by simp [hini]), h c]
      simp [hc]

theorem mem_firstOccurAux (l : List String) (acc : List String) (c : String) :
    c ∈ firstOccurAux acc l ↔ c ∈ acc ∨ c ∈ l := by
  induction l generalizing acc with
  | nil => simp [firstOccurAux]
  | cons x rest ih =>
      rw [firstOccurAux, ih]
      by_cases hx : x ∈ acc
      · simp only [if_pos hx, List.mem_cons]
        constructor
        · rintro (h | h)
          · exact Or.inl h
          · exact Or.inr (Or.inr h)
        · rintro (h | h | h)
          · exact Or.inl h
          · exact Or.inl (h ▸ hx)
          · exact Or.inr h
      · simp only [if_neg hx, List.mem_append, List.mem_singleton,
          List.mem_cons]
        tauto

theorem nodup_firstOccurAux (l : List String) (acc : List String)
    (h : acc.Nodup) : (firstOccurAux acc l).Nodup := by
  induction l generalizing acc with
  | nil => exact h
  | cons x rest ih =>
      rw [firstOccurAux]
      by_cases hx : x ∈ acc
      · rw [if_pos hx]
        exact ih acc h
      · rw [if_neg hx]
        refine ih _ ?_
        rw [← List.concat_eq_append]
        exact List.Nodup.concat hx h

theorem submitAll_regionList (inputs : List SubmitInput) (s : ContractState)
    (h : regionInv s) :
    (submitAll inputs s).regionList =
      firstOccurAux s.regionList (inputs.map SubmitInput.regionCode) := by
  induction inputs generalizing s with
  | nil => rfl
  | cons inp rest ih =>
      rw [submitAll, ih _ (submit_regionInv inp s h), submit_regionList,
        List.map_cons, firstOccurAux]
      by_cases hini : isInitialized (s.encryptedRegionStats inp.regionCode)
      · rw [if_pos hini, if_pos ((h inp.regionCode).mp hini)]
      · rw [if_neg hini, if_neg (fun hm => hini ((h inp.regionCode).mpr hm))]

/-! Lemmas about the oracle callback and the decryption request. -/

/-- A request id with no recorded correlation (the mapping still holds
the sentinel 0) makes the callback revert with Invalid request. -/
theorem decryptObservation_unknown (requestId : Nat) (cleartexts : List Int)
    (sigOk : Bool) (s : ContractState)
    (h : s.requestToObservationId requestId = 0) :
    decryptObservation requestId cleartexts sigOk s =
      Except.error ContractError.unknownRequest := by
  simp [decryptObservation, decryptObservationRun, h]

/-- A correlated request whose target observation is already revealed
makes the callback revert with Already decrypted. -/
theorem decryptObservation_already (requestId : Nat) (cleartexts : List Int)
    (sigOk : Bool) (s : ContractState)
    (h0 : s.requestToObservationId requestId ≠ 0)
    (hrev : (s.decryptedObservations
      (s.requestToObservationId requestId)).isRevealed = true) :
    decryptObservation requestId cleartexts sigOk s =
      Except.error ContractError.alreadyRevealed := by
  simp [decryptObservation, decryptObservationRun, h0, hrev]

/-- Inversion of a successful callback: the correlation was live, it is
left untouched by the callback (the source never deletes it), and the
target observation ends up revealed. -/
theorem decryptObservation_ok_spec (requestId : Nat) (cleartexts : List Int)
    (sigOk : Bool) (s s1 : ContractState)
    (h : decryptObservation requestId cleartexts sigOk s = Except.ok s1) :
    s.requestToObservationId requestId ≠ 0 ∧
    s1.requestToObservationId = s.requestToObservationId ∧
    (s1.decryptedObservations
      (s.requestToObservationId requestId)).isRevealed = true := by
  by_cases h0 : s.requestToObservationId requestId = 0
  · rw [decryptObservation_unknown _ _ _ _ h0] at h
    exact absurd h (by simp)
  · by_cases hrev : (s.decryptedObservations
        (s.requestToObservationId requestId)).isRevealed = true
    · rw [decryptObservation_already _ _ _ _ h0 hrev] at h
      exact absurd h (by simp)
    · simp only [Bool.not_eq_true] at hrev
      by_cases hsig : sigOk = false
      · simp [decryptObservation, decryptObservationRun, h0, hrev, hsig] at h
      · simp only [Bool.not_eq_false] at hsig
        rcases cleartexts with _ | ⟨b, _ | ⟨la, _ | ⟨lo, _ | ⟨ts, rest⟩⟩⟩⟩
        · simp [decryptObservation, decryptObservationRun, h0, hrev, hsig] at h
        · simp [decryptObservation, decryptObservationRun, h0, hrev, hsig] at h
        · simp [decryptObservation, decryptObservationRun, h0, hrev, hsig] at h
        · simp [decryptObservation, decryptObservationRun, h0, hrev, hsig] at h
        · have hs1 : s1 = { s with decryptedObservations := fun i =>
              if i = s.requestToObservationId requestId then
                { brightness := b, latitude := la, longitude := lo
                  timestamp := ts, isRevealed := true }
              else s.decryptedObservations i } := by
            simp [decryptObservation, decryptObservationRun, h0, hrev, hsig] at h
            exact h.symm
          subst hs1
          exact ⟨h0, rfl, by simp⟩

/-- The callback run leaves the storage untouched whenever it reports an
error: every require, including the signature verification, is executed
before the first write. -/
theorem decryptObservationRun_error_state (requestId : Nat)
    (cleartexts : List Int) (sigOk : Bool) (s : ContractState)
    (h : (decryptObservationRun requestId cleartexts sigOk s).2.isSome = true) :
    (decryptObservationRun requestId cleartexts sigOk s).1 = s := by
  by_cases h0 : s.requestToObservationId requestId = 0
  · simp [decryptObservationRun, h0]
  · by_cases hrev : (s.decryptedObservations
        (s.requestToObservationId requestId)).isRevealed = true
    · simp [decryptObservationRun, h0, hrev]
    · simp only [Bool.not_eq_true] at hrev
      by_cases hsig : sigOk = false
      · simp [decryptObservationRun, h0, hrev, hsig]
      · simp only [Bool.not_eq_false] at hsig
        rcases cleartexts with _ | ⟨b, _ | ⟨la, _ | ⟨lo, _ | ⟨ts, rest⟩⟩⟩⟩
        · simp [decryptObservationRun, h0, hrev, hsig]
        · simp [decryptObservationRun, h0, hrev, hsig]
        · simp [decryptObservationRun, h0, hrev, hsig]
        · simp [decryptObservationRun, h0, hrev, hsig]
        · exfalso
          simp [decryptObservationRun, h0, hrev, hsig] at h

/-- A decryption request on an unrevealed observation always succeeds,
dispatching the four stored ciphertext handles and correlating the
fresh request id to the observation; earlier correlations stay. -/
theorem request_ok_spec (sender observationId : Nat) (s : ContractState)
    (h : (s.decryptedObservations observationId).isRevealed = false) :
    requestObservationDecryption sender observationId s =
      Except.ok ({ s with
        dispatched := s.dispatched ++ [(s.nextRequestId,
          [(s.encryptedObservations observationId).encryptedBrightness,
           (s.encryptedObservations observationId).encryptedLatitude,
           (s.encryptedObservations observationId).encryptedLongitude,
           (s.encryptedObservations observationId).encryptedTimestamp])]
        nextRequestId := s.nextRequestId + 1
        requestToObservationId := fun r =>
          if r = s.nextRequestId then observationId
          else s.requestToObservationId r }, s.nextRequestId) := by
  unfold requestObservationDecryption
  rw [if_neg (by simp [h])]

/-- The only revert of a decryption request is Already decrypted; in
particular it never reverts with a not-found or authorization error. -/
theorem request_error_spec (sender observationId : Nat) (s : ContractState)
    (e : ContractError)
    (h : requestObservationDecryption sender observationId s =
      Except.error e) : e = ContractError.alreadyRevealed := by
  by_cases hrev : (s.decryptedObservations observationId).isRevealed = true
  · unfold requestObservationDecryption at h
    rw [if_pos hrev] at h
    exact (Except.error.inj h).symm
  · simp only [Bool.not_eq_true] at hrev
    rw [request_ok_spec sender observationId s hrev] at h
    exact absurd h (by simp)

/-! Claim theorems. -/

/-- Claim C1 counterexample: in exS3 the request id 1 has already been
consumed by a successful fulfill (observation 1 is revealed), yet a
second fulfill with the same request id fails with AlreadyRevealed and
not with UnknownRequest, so the claim as stated is false. -/
theorem c1_counterexample :
    (exS3.decryptedObservations 1).isRevealed = true ∧
    errorOf (decryptObservation 1 [5, 6, 7, 8] true exS3) =
      some ContractError.alreadyRevealed ∧
    some ContractError.alreadyRevealed ≠ some ContractError.unknownRequest :=
  ⟨by decide, by decide, by decide⟩

/-- Claim C1 as amended: fulfill with a request identity that was never
recorded (its correlation slot still holds the sentinel 0) fails with
UnknownRequest; but a successful fulfill does not consume the
correlation, so a replay of the same request identity fails with
AlreadyRevealed instead of UnknownRequest. -/
theorem c1_amended_fulfill_replay (requestId : Nat)
    (cleartexts cleartexts2 : List Int) (sigOk sigOk2 : Bool)
    (s s1 : ContractState) :
    (s.requestToObservationId requestId = 0 →
      decryptObservation requestId cleartexts sigOk s =
        Except.error ContractError.unknownRequest) ∧
    (decryptObservation requestId cleartexts sigOk s = Except.ok s1 →
      s1.requestToObservationId requestId =
        s.requestToObservationId requestId ∧
      decryptObservation requestId cleartexts2 sigOk2 s1 =
        Except.error ContractError.alreadyRevealed) := by
  constructor
  · exact fun h0 => decryptObservation_unknown _ _ _ _ h0
  · intro hok
    obtain ⟨h0, hmap, hrev⟩ := decryptObservation_ok_spec _ _ _ _ _ hok
    refine ⟨congrFun hmap requestId, ?_⟩
    apply decryptObservation_already
    · rw [congrFun hmap requestId]
      exact h0
    · rw [congrFun hmap requestId]
      exact hrev

/-- Claim C1 amended, witness at concrete inputs: an unrecorded request
id 9 fails with UnknownRequest at deployment, and the consumed request
id 1 replayed on exS3 keeps its correlation and fails with
AlreadyRevealed. -/
theorem c1_amended_witness :
    decryptObservation 9 [] true initialState =
      Except.error ContractError.unknownRequest ∧
    (exS3.requestToObservationId 1 = exS2.requestToObservationId 1 ∧
      decryptObservation 1 [5, 6, 7, 8] true exS3 =
        Except.error ContractError.alreadyRevealed) :=
  ⟨(c1_amended_fulfill_replay 9 [] [] true true initialState
      initialState).1 rfl,
   (c1_amended_fulfill_replay 1 [5, 6, 7, 8] [5, 6, 7, 8] true true
      exS2 exS3).2 rfl⟩

/-- Claim C2 counterexample: in exS2 a reveal request (id 1) is pending
for observation 1; a second requestReveal succeeds instead of failing
with RequestAlreadyPending, and afterwards two live correlations
(request ids 1 and 2) exist for observation 1, so the claim as stated
is false. -/
theorem c2_counterexample :
    exS2.requestToObservationId 1 = 1 ∧
    isOkE (requestObservationDecryption 0 1 exS2) = true ∧
    exS4.requestToObservationId 1 = 1 ∧ exS4.requestToObservationId 2 = 1 :=
  ⟨by decide, by decide, by decide, by decide⟩

/-- Claim C2 as amended: while an observation is unrevealed, every
further requestReveal succeeds regardless of pending requests,
correlating a fresh request id to the observation and leaving each
earlier correlation intact, so several pending correlations can
coexist for one observation. -/
theorem c2_amended_second_request (sender observationId : Nat)
    (s : ContractState)
    (h : (s.decryptedObservations observationId).isRevealed = false) :
    ∃ s1, requestObservationDecryption sender observationId s =
        Except.ok (s1, s.nextRequestId) ∧
      s1.requestToObservationId s.nextRequestId = observationId ∧
      (∀ r, r ≠ s.nextRequestId →
        s1.requestToObservationId r = s.requestToObservationId r) := by
  refine ⟨_, request_ok_spec sender observationId s h, by simp, ?_⟩
  intro r hr
  simp [hr]

/-- Claim C2 amended, witness: the second request on exS2 (request 1
still pending for observation 1) succeeds with fresh id 2 and keeps the
earlier correlation. -/
theorem c2_amended_witness :
    ∃ s1, requestObservationDecryption 0 1 exS2 =
        Except.ok (s1, exS2.nextRequestId) ∧
      s1.requestToObservationId exS2.nextRequestId = 1 ∧
      (∀ r, r ≠ exS2.nextRequestId →
        s1.requestToObservationId r = exS2.requestToObservationId r) :=
  c2_amended_second_request 0 1 exS2 (by decide)

/-- Claim C3: whenever the oracle callback fails (with UnknownRequest,
AlreadyRevealed, ProofVerificationFailed, or a cleartext decode
failure), no write was performed before the failing check — the
statement-ordered run still holds the original storage — and the
transaction leaves the ledger, every observation record and every
correlation included, exactly as it was. -/
theorem c3_fulfill_no_mutation_on_failure (requestId : Nat)
    (cleartexts : List Int) (sigOk : Bool) (s : ContractState)
    (e : ContractError)
    (h : decryptObservation requestId cleartexts sigOk s = Except.error e) :
    (decryptObservationRun requestId cleartexts sigOk s).1 = s ∧
    fulfillResultState requestId cleartexts sigOk s = s := by
  have h2 : (decryptObservationRun requestId cleartexts
      sigOk s).2.isSome = true := by
    unfold decryptObservation at h
    rcases hrun : decryptObservationRun requestId cleartexts sigOk s
      with ⟨sa, o⟩
    rw [hrun] at h
    cases o with
    | none => simp at h
    | some e2 => rfl
  exact ⟨decryptObservationRun_error_state _ _ _ _ h2,
    by simp [fulfillResultState, h]⟩

/-- Claim C3 witness: the failing callback for the unrecorded request id
9 at deployment leaves the storage unchanged. -/
theorem c3_witness :
    (decryptObservationRun 9 [] true initialState).1 = initialState ∧
    fulfillResultState 9 [] true initialState = initialState :=
  c3_fulfill_no_mutation_on_failure 9 [] true initialState
    ContractError.unknownRequest rfl

/-- Claim C4 counterexample: observation 1 exists in exS1 and the
requester 999 is not its contributor, yet requestReveal succeeds — the
onlyObserver modifier of the source has an empty body, so no
Unauthorized failure is possible and the outcome does not depend on the
requester at all; the claim as stated is false. -/
theorem c4_counterexample :
    isOkE (requestObservationDecryption 999 1 exS1) = true ∧
    requestObservationDecryption 999 1 exS1 =
      requestObservationDecryption 0 1 exS1 :=
  ⟨by decide, rfl⟩

/-- Claim C4 as amended: requestReveal performs no authorization check:
its outcome is identical for every requester, and its only possible
failure is AlreadyRevealed — it never fails with Unauthorized. -/
theorem c4_amended_no_authorization (sender1 sender2 observationId : Nat)
    (s : ContractState) :
    requestObservationDecryption sender1 observationId s =
      requestObservationDecryption sender2 observationId s ∧
    (∀ e, requestObservationDecryption sender1 observationId s =
        Except.error e → e = ContractError.alreadyRevealed) :=
  ⟨rfl, fun e he => request_error_spec sender1 observationId s e he⟩

/-- Claim C4 amended, witness: two unrelated requesters get the same
result on exS1, and the only failure observed on the revealed state
exS3 is AlreadyRevealed. -/
theorem c4_amended_witness :
    requestObservationDecryption 999 1 exS1 =
      requestObservationDecryption 123 1 exS1 ∧
    ContractError.alreadyRevealed = ContractError.alreadyRevealed :=
  ⟨(c4_amended_no_authorization 999 123 1 exS1).1,
   (c4_amended_no_authorization 7 8 1 exS3).2 ContractError.alreadyRevealed
     rfl⟩

/-- Claim C5 is right and the code violates it: from deployment, a
reveal request for the never-assigned id 5 is accepted (the code never
checks existence) and fulfilled with a verifying proof, setting the
revealed flag of id 5 to true; the fifth subsequent submission then
assigns id 5 and overwrites its decrypted record with a fresh
unrevealed one, resetting the flag from true back to false. -/
theorem c5_revealed_reset_at_failing_input :
    (exPhantomRevealed.decryptedObservations 5).isRevealed = true ∧
    (exAfterFive.decryptedObservations 5).isRevealed = false ∧
    exAfterFive.observationCount = 5 :=
  ⟨by decide, by decide, by decide⟩

/-- Claim C6: every sequence of submissions from deployment is assigned
exactly the identities 1, 2, ..., n in order: the id list is the
contiguous range starting at 1, hence strictly increasing with no gaps
and no identity reused. -/
theorem c6_submit_ids_sequential (inputs : List SubmitInput) :
    submitAllIds inputs initialState = List.range' 1 inputs.length ∧
    (submitAllIds inputs initialState).Nodup := by
  have h := submitAll_ids inputs initialState
  have h0 : initialState.observationCount = 0 := rfl
  rw [h0, Nat.zero_add] at h
  exact ⟨h, h ▸ List.nodup_range' 1 inputs.length⟩

/-- Claim C7: a region code is registered exactly once, at its first
submission: after any submission sequence from deployment the
registration list is the duplicate-free list of first occurrences of
the submitted codes, every registered slot holds the encrypted zero,
and the concrete EU-1, EU-1, AS-2 sequence yields the list EU-1, AS-2
with observation count 3. -/
theorem c7_region_registered_once (inputs : List SubmitInput) :
    (submitAll inputs initialState).regionList =
      firstOccur (inputs.map SubmitInput.regionCode) ∧
    (submitAll inputs initialState).regionList.Nodup ∧
    (∀ c, c ∈ inputs.map SubmitInput.regionCode →
      (submitAll inputs initialState).encryptedRegionStats c =
        Ciphertext.asEuint32 0) ∧
    (submitAll exThreeRegions initialState).regionList = ["EU-1", "AS-2"] ∧
    (submitAll exThreeRegions initialState).observationCount = 3 := by
  have hlist := submitAll_regionList inputs initialState regionInv_initial
  refine ⟨hlist, ?_, ?_, by decide, by decide⟩
  · rw [hlist]
    exact nodup_firstOccurAux _ _ List.nodup_nil
  · intro c hc
    rw [submitAll_stats inputs initialState c]
    exact if_pos (And.intro rfl hc)

/-- Claim C7 witness: the concrete EU-1, EU-1, AS-2 sequence, with the
registered EU-1 slot holding the encrypted zero. -/
theorem c7_witness :
    (submitAll exThreeRegions initialState).regionList =
      firstOccur (exThreeRegions.map SubmitInput.regionCode) ∧
    (submitAll exThreeRegions initialState).encryptedRegionStats "EU-1" =
      Ciphertext.asEuint32 0 :=
  ⟨(c7_region_registered_once exThreeRegions).1,
   (c7_region_registered_once exThreeRegions).2.2.1 "EU-1" (by decide)⟩

/-- Claim C8: regionalAverage fails with RegionNotFound exactly when the
code was never named by any submission; otherwise it returns the stored
region ciphertext homomorphically divided by the global observation
count — the length of the whole submission sequence, truncated to
uint32 — and not by the per-region contribution count. -/
theorem c8_regional_average (inputs : List SubmitInput) (code : String) :
    (code ∉ inputs.map SubmitInput.regionCode →
      calculateRegionalBrightness code (submitAll inputs initialState) =
        Except.error ContractError.regionNotFound) ∧
    (code ∈ inputs.map SubmitInput.regionCode →
      calculateRegionalBrightness code (submitAll inputs initialState) =
        Except.ok (Ciphertext.div
          ((submitAll inputs initialState).encryptedRegionStats code)
          (Ciphertext.asEuint32 (inputs.length % 2 ^ 32)))) := by
  have hstats := submitAll_stats inputs initialState code
  have hcount := submitAll_count inputs initialState
  have h0 : initialState.observationCount = 0 := rfl
  rw [h0, Nat.zero_add] at hcount
  constructor
  · intro hnot
    have hun : (submitAll inputs initialState).encryptedRegionStats code =
        Ciphertext.uninit := by
      rw [hstats, if_neg (fun hand => hnot hand.2)]
      rfl
    unfold calculateRegionalBrightness
    rw [hun]
    rfl
  · intro hmem
    have hz : (submitAll inputs initialState).encryptedRegionStats code =
        Ciphertext.asEuint32 0 := by
      rw [hstats]
      exact if_pos (And.intro rfl hmem)
    unfold calculateRegionalBrightness
    rw [hcount, if_pos (show isInitialized ((submitAll inputs
      initialState).encryptedRegionStats code) = true by
        rw [hz]
        exact isInitialized_asEuint32 0)]

/-- Claim C8 witness: after one EU-1 submission, the registered region
divides by the global count 1 and an unknown region fails with
RegionNotFound. -/
theorem c8_witness :
    calculateRegionalBrightness "EU-1" (submitAll [exInput] initialState) =
      Except.ok (Ciphertext.div
        ((submitAll [exInput] initialState).encryptedRegionStats "EU-1")
        (Ciphertext.asEuint32 (1 % 2 ^ 32))) ∧
    calculateRegionalBrightness "ZZ" (submitAll [exInput] initialState) =
      Except.error ContractError.regionNotFound :=
  ⟨(c8_regional_average [exInput] "EU-1").2 (by decide),
   (c8_regional_average [exInput] "ZZ").1 (by decide)⟩

/-- Claim C9 counterexample: id 999 was never assigned at deployment,
yet both getters return the stored all-zero default record successfully
instead of failing with NotFound — neither getter of the source has any
failure path, so the claim as stated is false. -/
theorem c9_counterexample :
    getDecryptedObservation 999 initialState = (0, 0, 0, 0, false) ∧
    getEncryptedObservation 999 initialState = defaultEncrypted :=
  ⟨by decide, by decide⟩

/-- Claim C9 as amended: the getters never fail; for every id never
assigned by a submission sequence (0, or above the observation count)
they return the stored defaults: the all-zero unrevealed decrypted
record and the all-default encrypted record. -/
theorem c9_amended_getters_default (inputs : List SubmitInput)
    (observationId : Nat)
    (h : observationId = 0 ∨
      (submitAll inputs initialState).observationCount < observationId) :
    getDecryptedObservation observationId (submitAll inputs initialState) =
      (0, 0, 0, 0, false) ∧
    getEncryptedObservation observationId (submitAll inputs initialState) =
      defaultEncrypted := by
  have hcount := submitAll_count inputs initialState
  have hrec := submitAll_records_high inputs initialState observationId (by
    rcases h with h | h
    · exact Or.inl h
    · right
      omega)
  unfold getDecryptedObservation getEncryptedObservation
  rw [hrec.1, hrec.2]
  exact ⟨rfl, rfl⟩

/-- Claim C9 amended, witness: id 999 after one submission. -/
theorem c9_amended_witness :
    getDecryptedObservation 999 (submitAll [exInput] initialState) =
      (0, 0, 0, 0, false) ∧
    getEncryptedObservation 999 (submitAll [exInput] initialState) =
      defaultEncrypted :=
  c9_amended_getters_default [exInput] 999 (by decide)

/-- Claim C10: a reveal request for an id never assigned by the
submission sequence (0 or above the observation count) is not rejected
with NotFound: the only guard is the revealed flag of the default
all-zero decrypted record, so the call succeeds, dispatches the four
default-initialized ciphertext handles to the oracle, and records a
pending correlation for the non-existent id. -/
theorem c10_request_reveal_unassigned (inputs : List SubmitInput)
    (sender observationId : Nat)
    (h : observationId = 0 ∨
      (submitAll inputs initialState).observationCount < observationId) :
    ∃ s1, requestObservationDecryption sender observationId
        (submitAll inputs initialState) =
        Except.ok (s1, (submitAll inputs initialState).nextRequestId) ∧
      s1.requestToObservationId
        (submitAll inputs initialState).nextRequestId = observationId ∧
      s1.dispatched = (submitAll inputs initialState).dispatched ++
        [((submitAll inputs initialState).nextRequestId,
          [Ciphertext.uninit, Ciphertext.uninit, Ciphertext.uninit,
           Ciphertext.uninit])] := by
  have hcount := submitAll_count inputs initialState
  have hrec := submitAll_records_high inputs initialState observationId (by
    rcases h with h | h
    · exact Or.inl h
    · right
      omega)
  have hdec : ((submitAll inputs initialState).decryptedObservations
      observationId).isRevealed = false := by
    rw [hrec.1]
    rfl
  refine ⟨_, request_ok_spec sender observationId
    (submitAll inputs initialState) hdec, by simp, ?_⟩
  rw [hrec.2]
  rfl

/-- Claim C10 witness: at deployment, requesting the reveal of the
never-assigned id 5 succeeds and correlates request id 1 to it. -/
theorem c10_witness :
    ∃ s1, requestObservationDecryption 0 5 (submitAll [] initialState) =
        Except.ok (s1, (submitAll [] initialState).nextRequestId) ∧
      s1.requestToObservationId (submitAll [] initialState).nextRequestId = 5 ∧
      s1.dispatched = (submitAll [] initialState).dispatched ++
        [((submitAll [] initialState).nextRequestId,
          [Ciphertext.uninit, Ciphertext.uninit, Ciphertext.uninit,
           Ciphertext.uninit])] :=
  c10_request_reveal_unassigned [] 0 5 (by decide)

end LightPollutionFHE
